import Mathlib

/-!
Verification of the Telnyx ⇄ OpenAI realtime voice bridge.

The repository contains several variants of the same server:
* `server.js`, first document ("variant A"): `handleTelnyxMediaWebSocket`
  with per-connection locals `streamId`, `openaiWs`, `openaiReady`;
* `server.js`, second document ("variant B"): a `wss.on("connection")`
  handler with a shared `cleanup` closing both sockets;
* `unnamed/part_000`, `part_001`, `part_002`, `part_003`: further variants.

Pure functions below are shallow embeddings of the event handlers in those
files: each socket callback becomes a function from the session state and a
parsed (or unparseable) frame to the new state and the list of messages the
callback sends.  JavaScript truthiness on strings is modelled explicitly:
`undefined` becomes `none`, and the empty string is falsy.
-/

namespace Bridge

/-- Readiness state of the OpenAI client socket (`openaiWs.readyState`). -/
inductive RS where
  | rsConnecting
  | rsOpen
  | rsClosed
deriving DecidableEq, Repr

/-- Parsed Telnyx media-stream frame, the shapes read by the
`telnyxWs.on("message")` handlers: `msg.event` with optional
`msg.stream_id` / `msg.media.payload`. -/
inductive TelnyxFrame where
  | start (stream_id : Option String)
  | media (payload : Option String)
  | stop
  | other (event : String)
deriving DecidableEq, Repr

/-- Parsed OpenAI realtime event as read by variant A's
`openaiWs.on("message")` handler: `msg.type` with `msg.delta` a string
for `response.audio.delta`. -/
inductive OpenAIFrame where
  | audioDelta (delta : String)
  | other (type : String)
deriving DecidableEq, Repr

/-- Message sent to the OpenAI realtime socket. -/
inductive OpenAIMsg where
  | sessionUpdate
  | inputAppend (audio : String)
  | inputCommit
  | responseCreate
  | conversationItemCreate
deriving DecidableEq, Repr

/-- Message sent to the Telnyx media socket: a `media` event whose
`stream_id` field is present only in the variants that tag. -/
inductive TelnyxOut where
  | media (stream_id : Option String) (payload : String)
deriving DecidableEq, Repr

/-- An outbound message of the bridge, to either peer. -/
inductive OutMsg where
  | toOpenAI (m : OpenAIMsg)
  | toTelnyx (m : TelnyxOut)
deriving DecidableEq, Repr

/-- State of one variant-A Bridge Session: the locals of
`handleTelnyxMediaWebSocket` (`streamId`, `openaiReady`, whether `openaiWs`
is non-null) plus the observable connection states and a history flag
`configSent` recording whether the `session.update` message has been sent. -/
structure BState where
  streamId : Option String
  openaiReady : Bool
  openaiConn : Bool
  telnyxOpen : Bool
  openaiRS : RS
  configSent : Bool
deriving DecidableEq, Repr

/-- The session state created by `handleTelnyxMediaWebSocket`:
`streamId = null`, `openaiReady = false`, `openaiWs` assigned synchronously
by `connectOpenAI` (still connecting), Telnyx socket open. -/
def initA : BState :=
  { streamId := none
    openaiReady := false
    openaiConn := true
    telnyxOpen := true
    openaiRS := RS.rsConnecting
    configSent := false }

/-- Connection-level events on either socket of a session. -/
inductive ConnEvent where
  | telnyxClose
  | telnyxError
  | openaiClose
  | openaiError
deriving DecidableEq, Repr

/-- One asynchronous event delivered to a variant-A Bridge Session.  A
frame event carries `none` when `JSON.parse` fails on the raw data. -/
inductive BridgeEvent where
  | openaiOpenEvt
  | telnyxFrame (f : Option TelnyxFrame)
  | openaiFrame (f : Option OpenAIFrame)
  | conn (e : ConnEvent)
deriving DecidableEq, Repr

/-- Variant A `telnyxWs.on("message")` handler (server.js, first document,
lines 248–300): parse failure returns; `start` stores `msg.stream_id`;
`media` forwards `input_audio_buffer.append` only when
`openaiReady && openaiWs` and the payload is truthy; `stop` only logs. -/
def telnyxHandlerA (st : BState) (f : Option TelnyxFrame) :
    BState × List OutMsg :=
  match f with
  | none => (st, [])
  | some (TelnyxFrame.start sid) => ({ st with streamId := sid }, [])
  | some (TelnyxFrame.media pay) =>
      if st.openaiReady && st.openaiConn then
        match pay with
        | some p =>
            if p.isEmpty then (st, [])
            else (st, [OutMsg.toOpenAI (OpenAIMsg.inputAppend p)])
        | none => (st, [])
      else (st, [])
  | some TelnyxFrame.stop => (st, [])
  | some (TelnyxFrame.other _) => (st, [])

/-- Variant A `openaiWs.on("message")` handler (server.js, first document,
lines 187–232): parse failure returns; `response.audio.delta` is forwarded
to Telnyx as a `media` event tagged with `streamId`, but only when
`streamId` is truthy (`if (!streamId) return`); all other event types only
log. -/
def openaiHandlerA (st : BState) (f : Option OpenAIFrame) :
    BState × List OutMsg :=
  match f with
  | none => (st, [])
  | some (OpenAIFrame.audioDelta d) =>
      match st.streamId with
      | some sid =>
          if sid.isEmpty then (st, [])
          else (st, [OutMsg.toTelnyx (TelnyxOut.media (some sid) d)])
      | none => (st, [])
  | some (OpenAIFrame.other _) => (st, [])

/-- Variant A connection-event handlers (server.js, first document, lines
234–242 and 302–314): a Telnyx close/error closes the OpenAI socket when
it is open; an OpenAI close/error only resets `openaiReady` — it does not
touch the Telnyx socket. -/
def connHandlerA (st : BState) (e : ConnEvent) : BState :=
  match e with
  | ConnEvent.telnyxClose =>
      { st with telnyxOpen := false
                openaiRS := if st.openaiRS = RS.rsOpen then RS.rsClosed
                            else st.openaiRS }
  | ConnEvent.telnyxError =>
      { st with openaiRS := if st.openaiRS = RS.rsOpen then RS.rsClosed
                            else st.openaiRS }
  | ConnEvent.openaiClose =>
      { st with openaiRS := RS.rsClosed, openaiReady := false }
  | ConnEvent.openaiError =>
      { st with openaiReady := false }

/-- Variant A full session step: the `openaiWs.on("open")` handler
(server.js, first document, lines 164–185) sets `openaiReady = true` and
then sends the `session.update` configuration, all inside one atomic
callback run; frame and connection events dispatch to their handlers. -/
def stepA (st : BState) (e : BridgeEvent) : BState × List OutMsg :=
  match e with
  | BridgeEvent.openaiOpenEvt =>
      ({ st with openaiReady := true
                 openaiRS := RS.rsOpen
                 configSent := true },
       [OutMsg.toOpenAI OpenAIMsg.sessionUpdate])
  | BridgeEvent.telnyxFrame f => telnyxHandlerA st f
  | BridgeEvent.openaiFrame f => openaiHandlerA st f
  | BridgeEvent.conn c => (connHandlerA st c, [])

/-- Run a variant-A session over a list of events, collecting the outputs
in the order they are sent. -/
def runA (st : BState) : List BridgeEvent → BState × List OutMsg
  | [] => (st, [])
  | e :: es =>
      let p := stepA st e
      let q := runA p.1 es
      (q.1, p.2 ++ q.2)

/-- Variant B `telnyxWs.on("message")` handler (server.js, second document,
lines 468–489): parse failure returns; a `media` frame with truthy payload
is forwarded as `input_audio_buffer.append`; a `stop` frame sends
`input_audio_buffer.commit` followed by `response.create`.  There is no
readiness flag and no `start` handling in this variant. -/
def telnyxHandlerB (f : Option TelnyxFrame) : List OpenAIMsg :=
  match f with
  | none => []
  | some (TelnyxFrame.media (some p)) =>
      if p.isEmpty then [] else [OpenAIMsg.inputAppend p]
  | some (TelnyxFrame.media none) => []
  | some TelnyxFrame.stop => [OpenAIMsg.inputCommit, OpenAIMsg.responseCreate]
  | some (TelnyxFrame.start _) => []
  | some (TelnyxFrame.other _) => []

/-- `telnyxWs.on("message")` of `part_000` (lines 205–265), over the
parsed frame and the current OpenAI socket ready state; the `media`
payload field stands for the value of the fallback chain
`msg.media?.payload || msg.media?.data || msg.payload || msg.data?.payload`.
A `start` frame sends a scripted `response.create` when the socket is
open; a `media` frame with truthy payload is forwarded as an append when
the socket is open; a `stop` frame sends only
`input_audio_buffer.commit`, and only when the socket is open — this
variant never sends `response.create` on `stop`. -/
def telnyxHandlerP0 (rs : RS) (f : Option TelnyxFrame) : List OpenAIMsg :=
  match f with
  | none => []
  | some (TelnyxFrame.start _) =>
      if rs = RS.rsOpen then [OpenAIMsg.responseCreate] else []
  | some (TelnyxFrame.media pay) =>
      match pay with
      | some p =>
          if p.isEmpty then []
          else if rs = RS.rsOpen then [OpenAIMsg.inputAppend p] else []
      | none => []
  | some TelnyxFrame.stop =>
      if rs = RS.rsOpen then [OpenAIMsg.inputCommit] else []
  | some (TelnyxFrame.other _) => []

/-- Observable open/closed state of the two sockets of one session, for
the variant-B teardown. -/
structure ConnPair where
  telnyxOpen : Bool
  openaiOpen : Bool
deriving DecidableEq, Repr

/-- Variant B `cleanup` (server.js, second document, lines 491–503),
registered for close and error on both sockets: it closes both sockets
unconditionally, swallowing any exception. -/
def cleanupB (_e : ConnEvent) (_s : ConnPair) : ConnPair :=
  { telnyxOpen := false, openaiOpen := false }

/-- The data the variant-B webhook handler reads from one notification:
`req.body.data.event_type` and `req.body.data.payload.call_control_id`
(server.js, second document, lines 356–392). -/
structure WebhookNotif where
  event_type : Option String
  call_control_id : Option String
deriving DecidableEq, Repr

/-- Control-plane HTTP request issued by the webhook handler. -/
inductive ControlRequest where
  | streamingStart (callControlId : String)
deriving DecidableEq, Repr

/-- Variant B webhook handler for one notification (server.js, second
document, lines 356–392): when `eventType === "call.answered"` and
`callControlId` is truthy it issues exactly one `streaming_start` request
for that call; every other notification issues none.  The handler keeps no
state across requests. -/
def handleWebhookB (n : WebhookNotif) : List ControlRequest :=
  match n.event_type, n.call_control_id with
  | some et, some cid =>
      if et = "call.answered" && !cid.isEmpty then
        [ControlRequest.streamingStart cid]
      else []
  | _, _ => []

/-- Requests issued by the variant-B webhook endpoint across a sequence of
notifications: each is handled independently, so the requests concatenate. -/
def handleWebhooksB : List WebhookNotif → List ControlRequest
  | [] => []
  | n :: ns => handleWebhookB n ++ handleWebhooksB ns

/-- Parsed OpenAI event as read by the second handler of `part_003`
(lines 371–381): `msg.type` with `msg.delta.audio` an optional string. -/
inductive OpenAIFrameP3 where
  | audioDelta (audio : Option String)
  | other (type : String)
deriving DecidableEq, Repr

/-- `openaiWs.on("message")` of the second document in `part_003`
(lines 371–381): `JSON.parse(raw.toString())` is called with no
try/catch, so a malformed frame raises an uncaught exception instead of
being dropped; a well-formed `response.audio.delta` with truthy
`msg.delta.audio` is forwarded to Telnyx untagged. -/
def openaiHandlerP3 (f : Option OpenAIFrameP3) :
    Except Unit (List TelnyxOut) :=
  match f with
  | none => Except.error ()
  | some (OpenAIFrameP3.audioDelta (some a)) =>
      if a.isEmpty then Except.ok []
      else Except.ok [TelnyxOut.media none a]
  | some (OpenAIFrameP3.audioDelta none) => Except.ok []
  | some (OpenAIFrameP3.other _) => Except.ok []

/-- Module-level state of `part_002`: `let openaiWS = null` is declared
once at module scope (line 112), shared by every media connection, plus a
counter used to name the OpenAI sockets in order of creation. -/
structure P2State where
  openaiWS : Option Nat
  nextHandle : Nat
deriving DecidableEq, Repr

/-- The `part_002` module state at startup: no OpenAI socket yet. -/
def p2Init : P2State := { openaiWS := none, nextHandle := 0 }

/-- `wss.on("connection")` of `part_002` (lines 114–189): each accepted
Telnyx connection creates a fresh OpenAI socket and assigns it to the one
module-level `openaiWS` variable, overwriting whatever was there.  Returns
the new module state and the handle of the socket created for this
session. -/
def p2OnConnection (s : P2State) : P2State × Nat :=
  ({ openaiWS := some s.nextHandle, nextHandle := s.nextHandle + 1 },
   s.nextHandle)

/-- The socket a `part_002` media frame is sent to (lines 129–138): the
handler reads the module-level `openaiWS` at the time the frame arrives,
not a per-session handle. -/
def p2MediaTarget (s : P2State) : Option Nat := s.openaiWS

/-- Two independent variant-A sessions side by side.  In `server.js` the
session state consists of locals of one `handleTelnyxMediaWebSocket`
invocation, so distinct accepted connections get distinct states; an event
is delivered to exactly one session and runs that session's handlers. -/
def stepPairA (ss : BState × BState) (onFirst : Bool) (e : BridgeEvent) :
    (BState × BState) × List OutMsg :=
  if onFirst then
    let p := stepA ss.1 e
    ((p.1, ss.2), p.2)
  else
    let p := stepA ss.2 e
    ((ss.1, p.1), p.2)

/-- `httpServer.on("upgrade")` (server.js, first document, lines 132–142;
identically `part_002` lines 198–206): a request whose `url` is exactly
`/media` is handed to the WebSocket server and produces a fresh Bridge
Session; any other path has its socket destroyed and produces nothing. -/
def handleUpgrade (url : String) : Option BState :=
  if url = "/media" then some initA else none

/-- Micro-step view of variant A's `openaiWs.on("open")` callback body
(server.js, first document, lines 164–185): the statements it executes, in
source order. -/
inductive OpenAction where
  | setReady
  | sendSessionUpdate
deriving DecidableEq, Repr

/-- The statements of the variant-A open callback in the order they
appear: `openaiReady = true` first (line 166), then
`openaiWs.send(JSON.stringify(sessionUpdate))` (line 184). -/
def openHandlerActionsA : List OpenAction :=
  [OpenAction.setReady, OpenAction.sendSessionUpdate]

/-- What each statement of the open callback changes, at statement
granularity. -/
structure HandshakeObs where
  ready : Bool
  configSent : Bool
deriving DecidableEq, Repr

/-- Effect of one statement of the open callback. -/
def execOpenAction (s : HandshakeObs) (a : OpenAction) : HandshakeObs :=
  match a with
  | OpenAction.setReady => { s with ready := true }
  | OpenAction.sendSessionUpdate => { s with configSent := true }

/-- All states the handshake passes through, statement by statement,
starting from `ready = false`, `configSent = false`. -/
def handshakeStates : List HandshakeObs :=
  List.scanl execOpenAction { ready := false, configSent := false }
    openHandlerActionsA

/-- The append payloads among a list of outbound messages, in order. -/
def appendsOf : List OutMsg → List String
  | [] => []
  | OutMsg.toOpenAI (OpenAIMsg.inputAppend a) :: ms => a :: appendsOf ms
  | _ :: ms => appendsOf ms

end Bridge

/-- Claim C1 counterexample: in the `handleTelnyxMediaWebSocket` bridge, a
close of the voice-model connection does not close the telephony
connection — from a session with both sockets open, the `openaiWs` close
handler only resets `openaiReady`, and the Telnyx socket stays open. -/
theorem c1_counterexample :
    (Bridge.stepA
      { streamId := some "s1", openaiReady := true, openaiConn := true,
        telnyxOpen := true, openaiRS := Bridge.RS.rsOpen, configSent := true }
      (Bridge.BridgeEvent.conn Bridge.ConnEvent.openaiClose)).1.telnyxOpen
      = true := by
  rfl

/-- Claim C1, amended: in the `handleTelnyxMediaWebSocket` bridge, a
close or error of the telephony connection closes the voice-model
connection when it is open, while a close or error of the voice-model
connection only resets the readiness flag and leaves the telephony
connection in its prior state; the second server.js variant's shared
`cleanup` closes both connections on any close or error of either. -/
theorem c1_teardown_amended (st : Bridge.BState) (s : Bridge.ConnPair)
    (e : Bridge.ConnEvent) (h : st.openaiRS = Bridge.RS.rsOpen) :
    (Bridge.connHandlerA st Bridge.ConnEvent.telnyxClose).openaiRS
        = Bridge.RS.rsClosed
    ∧ (Bridge.connHandlerA st Bridge.ConnEvent.telnyxError).openaiRS
        = Bridge.RS.rsClosed
    ∧ (Bridge.connHandlerA st Bridge.ConnEvent.openaiClose).openaiReady = false
    ∧ (Bridge.connHandlerA st Bridge.ConnEvent.openaiClose).telnyxOpen
        = st.telnyxOpen
    ∧ (Bridge.connHandlerA st Bridge.ConnEvent.openaiError).openaiReady = false
    ∧ (Bridge.connHandlerA st Bridge.ConnEvent.openaiError).telnyxOpen
        = st.telnyxOpen
    ∧ Bridge.cleanupB e s = { telnyxOpen := false, openaiOpen := false } := by
  refine ⟨?_, ?_, rfl, rfl, rfl, rfl, rfl⟩ <;>
    simp [Bridge.connHandlerA, h]

/-- Witness for the amended C1 teardown theorem at a concrete session
state with the voice-model socket open. -/
theorem c1_teardown_amended_witness :
    (Bridge.connHandlerA
        { streamId := some "s1", openaiReady := true, openaiConn := true,
          telnyxOpen := true, openaiRS := Bridge.RS.rsOpen, configSent := true }
        Bridge.ConnEvent.telnyxClose).openaiRS = Bridge.RS.rsClosed :=
  (c1_teardown_amended
    { streamId := some "s1", openaiReady := true, openaiConn := true,
      telnyxOpen := true, openaiRS := Bridge.RS.rsOpen, configSent := true }
    { telnyxOpen := true, openaiOpen := true }
    Bridge.ConnEvent.openaiClose rfl).1

/-- Claim C2: in the `handleTelnyxMediaWebSocket` bridge, every
well-formed `media` frame received while `openaiReady` holds has its exact
base64 payload sent to the voice model as an `input_audio_buffer.append`
message, and a run of such frames yields the append messages in the same
order the frames were received. -/
theorem c2_media_forward (st : Bridge.BState) (ps : List String)
    (h1 : st.openaiReady = true) (h2 : st.openaiConn = true)
    (hps : ∀ p ∈ ps, p.isEmpty = false) :
    (Bridge.runA st (ps.map fun p => Bridge.BridgeEvent.telnyxFrame
        (some (Bridge.TelnyxFrame.media (some p))))).2
      = ps.map fun p => Bridge.OutMsg.toOpenAI (Bridge.OpenAIMsg.inputAppend p) := by
  induction ps with
  | nil => rfl
  | cons p ps ih =>
      have hp : p.isEmpty = false := hps p (List.mem_cons_self p ps)
      have hstep : Bridge.stepA st (Bridge.BridgeEvent.telnyxFrame
          (some (Bridge.TelnyxFrame.media (some p))))
          = (st, [Bridge.OutMsg.toOpenAI (Bridge.OpenAIMsg.inputAppend p)]) := by
        simp [Bridge.stepA, Bridge.telnyxHandlerA, h1, h2, hp]
      simp only [List.map_cons, Bridge.runA, hstep]
      simpa using ih (fun q hq => hps q (List.mem_cons_of_mem p hq))

/-- Witness for the C2 forwarding theorem: a ready session receiving the
frames with payloads `AAA=`-like strings produces exactly the matching
append messages in order. -/
theorem c2_media_forward_witness :
    (Bridge.runA
      { streamId := some "s1", openaiReady := true, openaiConn := true,
        telnyxOpen := true, openaiRS := Bridge.RS.rsOpen, configSent := true }
      (["QUFB", "QkJC"].map fun p => Bridge.BridgeEvent.telnyxFrame
        (some (Bridge.TelnyxFrame.media (some p))))).2
      = ["QUFB", "QkJC"].map
          (fun p => Bridge.OutMsg.toOpenAI (Bridge.OpenAIMsg.inputAppend p)) :=
  c2_media_forward
    { streamId := some "s1", openaiReady := true, openaiConn := true,
      telnyxOpen := true, openaiRS := Bridge.RS.rsOpen, configSent := true }
    ["QUFB", "QkJC"] rfl rfl (by decide)

/-- Claim C3 counterexample: in the `handleTelnyxMediaWebSocket` bridge,
a `response.audio.delta` received before any `start` frame recorded a
stream identifier is not forwarded at all — the handler returns without
sending anything to the telephony connection. -/
theorem c3_counterexample :
    (Bridge.stepA
      { streamId := none, openaiReady := true, openaiConn := true,
        telnyxOpen := true, openaiRS := Bridge.RS.rsOpen, configSent := true }
      (Bridge.BridgeEvent.openaiFrame
        (some (Bridge.OpenAIFrame.audioDelta "QkJC")))).2
      = ([] : List Bridge.OutMsg) := by
  rfl

/-- Claim C3, amended: in the `handleTelnyxMediaWebSocket` bridge, a
voice-model audio-delta received while a non-empty stream identifier has
been recorded is forwarded to the telephony connection as a `media` event
tagged with that identifier (and a `start` frame overwrites the recorded
identifier, so the tag is always the most recently recorded one); a delta
received before any identifier is recorded is dropped. -/
theorem c3_delta_forward_amended (st : Bridge.BState) (sid : String)
    (d : String) (sid2 : Option String)
    (h1 : st.streamId = some sid) (h2 : sid.isEmpty = false) :
    Bridge.stepA st (Bridge.BridgeEvent.openaiFrame
        (some (Bridge.OpenAIFrame.audioDelta d)))
      = (st, [Bridge.OutMsg.toTelnyx (Bridge.TelnyxOut.media (some sid) d)])
    ∧ (Bridge.stepA st (Bridge.BridgeEvent.telnyxFrame
        (some (Bridge.TelnyxFrame.start sid2)))).1.streamId = sid2 := by
  constructor
  · simp [Bridge.stepA, Bridge.openaiHandlerA, h1, h2]
  · rfl

/-- Witness for the amended C3 theorem at a session that recorded stream
identifier `s1`. -/
theorem c3_delta_forward_amended_witness :
    Bridge.stepA
      { streamId := some "s1", openaiReady := true, openaiConn := true,
        telnyxOpen := true, openaiRS := Bridge.RS.rsOpen, configSent := true }
      (Bridge.BridgeEvent.openaiFrame
        (some (Bridge.OpenAIFrame.audioDelta "QkJC")))
      = ({ streamId := some "s1", openaiReady := true, openaiConn := true,
           telnyxOpen := true, openaiRS := Bridge.RS.rsOpen, configSent := true },
         [Bridge.OutMsg.toTelnyx (Bridge.TelnyxOut.media (some "s1") "QkJC")]) :=
  (c3_delta_forward_amended
    { streamId := some "s1", openaiReady := true, openaiConn := true,
      telnyxOpen := true, openaiRS := Bridge.RS.rsOpen, configSent := true }
    "s1" "QkJC" (some "s2") rfl (by decide)).1

/-- Claim C4 counterexample: the webhook endpoint keeps no per-call state,
so two duplicate `call.answered` notifications for call `call_123` issue
two `streaming_start` requests — more than one for the same call
identifier. -/
theorem c4_counterexample :
    Bridge.handleWebhooksB
      [{ event_type := some "call.answered", call_control_id := some "call_123" },
       { event_type := some "call.answered", call_control_id := some "call_123" }]
      = [Bridge.ControlRequest.streamingStart "call_123",
         Bridge.ControlRequest.streamingStart "call_123"]
    ∧ ¬ (Bridge.handleWebhooksB
      [{ event_type := some "call.answered", call_control_id := some "call_123" },
       { event_type := some "call.answered", call_control_id := some "call_123" }]).length ≤ 1 := by
  decide

/-- Claim C4, amended: each `call.answered` notification carrying a truthy
call identifier triggers exactly one streaming-activation request at the
moment it is handled; the endpoint deduplicates nothing, so `k` duplicate
answered notifications for the same call identifier trigger `k` requests. -/
theorem c4_answered_requests_amended (n : Bridge.WebhookNotif) (cid : String)
    (k : Nat) (h1 : n.event_type = some "call.answered")
    (h2 : n.call_control_id = some cid) (h3 : cid.isEmpty = false) :
    Bridge.handleWebhookB n = [Bridge.ControlRequest.streamingStart cid]
    ∧ Bridge.handleWebhooksB (List.replicate k n)
        = List.replicate k (Bridge.ControlRequest.streamingStart cid) := by
  have hone : Bridge.handleWebhookB n
      = [Bridge.ControlRequest.streamingStart cid] := by
    simp [Bridge.handleWebhookB, h1, h2, h3]
  refine ⟨hone, ?_⟩
  induction k with
  | zero => rfl
  | succ k ih =>
      simp [List.replicate_succ, Bridge.handleWebhooksB, hone, ih]

/-- Witness for the amended C4 theorem: the concrete answered
notification for `call_123`, duplicated twice. -/
theorem c4_answered_requests_amended_witness :
    Bridge.handleWebhookB
        { event_type := some "call.answered", call_control_id := some "call_123" }
      = [Bridge.ControlRequest.streamingStart "call_123"]
    ∧ Bridge.handleWebhooksB (List.replicate 2
        { event_type := some "call.answered", call_control_id := some "call_123" })
      = List.replicate 2 (Bridge.ControlRequest.streamingStart "call_123") :=
  c4_answered_requests_amended
    { event_type := some "call.answered", call_control_id := some "call_123" }
    "call_123" 2 rfl rfl (by decide)

/-- Claim C5 counterexample: in the `handleTelnyxMediaWebSocket` bridge, a
`stop` frame sends nothing to the voice model — in particular no
`input_audio_buffer.commit` — even in a fully started, ready session. -/
theorem c5_counterexample :
    (Bridge.stepA
      { streamId := some "s1", openaiReady := true, openaiConn := true,
        telnyxOpen := true, openaiRS := Bridge.RS.rsOpen, configSent := true }
      (Bridge.BridgeEvent.telnyxFrame (some Bridge.TelnyxFrame.stop))).2
      = ([] : List Bridge.OutMsg) := by
  rfl

/-- Claim C5, amended: a telephony `stop` frame makes the second
server.js bridge variant send `input_audio_buffer.commit` followed by
`response.create`; it makes the `part_000` bridge send only
`input_audio_buffer.commit`, and only while the voice-model socket is
open; and the `handleTelnyxMediaWebSocket` variant sends nothing on
`stop`, only logging and leaving its state unchanged. -/
theorem c5_stop_commit_amended (st : Bridge.BState) :
    Bridge.telnyxHandlerB (some Bridge.TelnyxFrame.stop)
      = [Bridge.OpenAIMsg.inputCommit, Bridge.OpenAIMsg.responseCreate]
    ∧ Bridge.telnyxHandlerP0 Bridge.RS.rsOpen (some Bridge.TelnyxFrame.stop)
      = [Bridge.OpenAIMsg.inputCommit]
    ∧ Bridge.telnyxHandlerP0 Bridge.RS.rsConnecting
        (some Bridge.TelnyxFrame.stop) = []
    ∧ Bridge.telnyxHandlerP0 Bridge.RS.rsClosed
        (some Bridge.TelnyxFrame.stop) = []
    ∧ Bridge.stepA st (Bridge.BridgeEvent.telnyxFrame (some Bridge.TelnyxFrame.stop))
      = (st, []) := by
  refine ⟨rfl, ?_, ?_, ?_, rfl⟩ <;> simp [Bridge.telnyxHandlerP0]

/-- Claim C6: in the `handleTelnyxMediaWebSocket` bridge, a `media` frame
received while the voice-model connection is not yet ready is dropped
completely: the session state is unchanged — nothing is buffered — and the
whole rest of the run is exactly as if the frame had never arrived, so no
append message is ever sent for it, then or later. -/
theorem c6_not_ready_drop (st : Bridge.BState) (p : Option String)
    (es : List Bridge.BridgeEvent) (h : st.openaiReady = false) :
    Bridge.runA st (Bridge.BridgeEvent.telnyxFrame
        (some (Bridge.TelnyxFrame.media p)) :: es)
      = Bridge.runA st es := by
  have hstep : Bridge.stepA st (Bridge.BridgeEvent.telnyxFrame
      (some (Bridge.TelnyxFrame.media p))) = (st, []) := by
    simp [Bridge.stepA, Bridge.telnyxHandlerA, h]
  simp [Bridge.runA, hstep]

/-- Witness for the C6 drop theorem: the freshly created session (not yet
ready) receiving one media frame and then nothing behaves exactly like the
empty run. -/
theorem c6_not_ready_drop_witness :
    Bridge.runA Bridge.initA
        [Bridge.BridgeEvent.telnyxFrame
          (some (Bridge.TelnyxFrame.media (some "QUFB")))]
      = Bridge.runA Bridge.initA [] :=
  c6_not_ready_drop Bridge.initA (some "QUFB") [] rfl

/-- Claim C7 counterexample: the open callback of
`handleTelnyxMediaWebSocket` executes `openaiReady = true` before it sends
the `session.update` configuration, so the handshake passes through the
statement-level state where the readiness flag is true and the
configuration message has not yet been sent. -/
theorem c7_counterexample :
    Bridge.HandshakeObs.mk true false ∈ Bridge.handshakeStates
    ∧ Bridge.openHandlerActionsA
      = [Bridge.OpenAction.setReady, Bridge.OpenAction.sendSessionUpdate] := by
  decide

/-- Claim C7, amended: the open callback sets the readiness flag before
sending the session configuration, but both happen inside the same atomic
callback run, so at event granularity every reachable state of a session
started from `initA` with the readiness flag true has already sent the
session-configuration message. -/
theorem telnyxHandlerA_preserves (st : Bridge.BState)
    (f : Option Bridge.TelnyxFrame) :
    ((Bridge.telnyxHandlerA st f).1).openaiReady = st.openaiReady
    ∧ ((Bridge.telnyxHandlerA st f).1).configSent = st.configSent := by
  cases f with
  | none => exact ⟨rfl, rfl⟩
  | some tf =>
      cases tf with
      | start sid => exact ⟨rfl, rfl⟩
      | media pay =>
          cases pay with
          | none => simp [Bridge.telnyxHandlerA]
          | some p =>
              simp only [Bridge.telnyxHandlerA]
              split_ifs <;> exact ⟨rfl, rfl⟩
      | stop => exact ⟨rfl, rfl⟩
      | other ev => exact ⟨rfl, rfl⟩

theorem openaiHandlerA_state_eq (st : Bridge.BState)
    (f : Option Bridge.OpenAIFrame) :
    (Bridge.openaiHandlerA st f).1 = st := by
  cases f with
  | none => rfl
  | some of =>
      cases of with
      | audioDelta d =>
          cases hs : st.streamId with
          | none => simp [Bridge.openaiHandlerA, hs]
          | some sid =>
              simp only [Bridge.openaiHandlerA, hs]
              split_ifs <;> rfl
      | other ty => rfl

theorem c7_ready_implies_config_amended (es : List Bridge.BridgeEvent)
    (h : ((Bridge.runA Bridge.initA es).1).openaiReady = true) :
    ((Bridge.runA Bridge.initA es).1).configSent = true := by
  suffices hinv : ∀ (st : Bridge.BState), (st.openaiReady = true → st.configSent = true) →
      ∀ (l : List Bridge.BridgeEvent),
      ((Bridge.runA st l).1).openaiReady = true → ((Bridge.runA st l).1).configSent = true by
    exact hinv Bridge.initA (by intro hh; cases hh) es h
  intro st hst l
  induction l generalizing st with
  | nil => exact hst
  | cons e l ih =>
      simp only [Bridge.runA]
      apply ih
      cases e with
      | openaiOpenEvt => intro _; rfl
      | telnyxFrame f =>
          have hp := telnyxHandlerA_preserves st f
          simp only [Bridge.stepA]
          rw [hp.1, hp.2]
          exact hst
      | openaiFrame f =>
          simp only [Bridge.stepA]
          rw [openaiHandlerA_state_eq st f]
          exact hst
      | conn c =>
          cases c with
          | telnyxClose => exact hst
          | telnyxError => exact hst
          | openaiClose => intro hh; cases hh
          | openaiError => intro hh; cases hh

/-- Witness for the amended C7 theorem: after the open event itself, the
session is ready and the configuration has been sent. -/
theorem c7_ready_implies_config_amended_witness :
    ((Bridge.runA Bridge.initA [Bridge.BridgeEvent.openaiOpenEvt]).1).configSent
      = true :=
  c7_ready_implies_config_amended [Bridge.BridgeEvent.openaiOpenEvt] rfl

/-- Claim C8 counterexample: the voice-model message handler of the second
document of `part_003` parses with no try/catch, so a malformed frame
raises an uncaught exception in the handler instead of being dropped
silently. -/
theorem c8_counterexample :
    Bridge.openaiHandlerP3 none = Except.error ()
    ∧ Bridge.openaiHandlerP3 none ≠ Except.ok ([] : List Bridge.TelnyxOut) :=
  ⟨rfl, fun h => Except.noConfusion h⟩

/-- Claim C8, amended: in the `handleTelnyxMediaWebSocket` bridge, a
malformed frame on either the telephony or the voice-model connection is
dropped silently — no state change, no outbound message, no termination of
either connection; the second `part_003` variant instead raises an
uncaught parse exception on a malformed voice-model frame. -/
theorem c8_malformed_amended (st : Bridge.BState) :
    Bridge.stepA st (Bridge.BridgeEvent.telnyxFrame none) = (st, [])
    ∧ Bridge.stepA st (Bridge.BridgeEvent.openaiFrame none) = (st, [])
    ∧ Bridge.openaiHandlerP3 none = Except.error () :=
  ⟨rfl, rfl, rfl⟩

/-- Claim C9 counterexample: in `part_002` the voice-model handle is one
module-level variable shared by all sessions: the first accepted
connection creates handle `0` for itself, but after a second connection is
accepted a media frame arriving on the first session's telephony socket is
sent to handle `1` — the second session's voice-model connection. -/
theorem c9_counterexample :
    (Bridge.p2OnConnection Bridge.p2Init).2 = 0
    ∧ Bridge.p2MediaTarget
        (Bridge.p2OnConnection (Bridge.p2OnConnection Bridge.p2Init).1).1
      = some 1
    ∧ some 1 ≠ (some 0 : Option Nat) := by
  decide

/-- Claim C9, amended: in server.js each Bridge Session's state is local
to one `handleTelnyxMediaWebSocket` invocation, so delivering an event to
one session leaves the other session's state untouched; in `part_002`,
however, the voice-model connection handle is a single module-level
variable, so after a second connection every media frame — including one
on the first session's socket — is sent to the most recently created
voice-model connection. -/
theorem c9_independence_amended (ss : Bridge.BState × Bridge.BState)
    (e : Bridge.BridgeEvent) :
    ((Bridge.stepPairA ss true e).1).2 = ss.2
    ∧ ((Bridge.stepPairA ss false e).1).1 = ss.1
    ∧ Bridge.p2MediaTarget
        (Bridge.p2OnConnection (Bridge.p2OnConnection Bridge.p2Init).1).1
      = some (Bridge.p2OnConnection (Bridge.p2OnConnection Bridge.p2Init).1).2 :=
  ⟨rfl, rfl, rfl⟩

/-- Claim C10: the upgrade handler accepts exactly the path `/media`: any
other upgrade request is destroyed, creating no Bridge Session and opening
no voice-model connection, while an upgrade at `/media` produces a fresh
Bridge Session in its initial state. -/
theorem c10_upgrade_routing (u : String) (h : u ≠ "/media") :
    Bridge.handleUpgrade u = none
    ∧ Bridge.handleUpgrade "/media" = some Bridge.initA := by
  constructor
  · simp [Bridge.handleUpgrade, h]
  · rfl

/-- Witness for the C10 routing theorem at the concrete path `/other`. -/
theorem c10_upgrade_routing_witness :
    Bridge.handleUpgrade "/other" = none
    ∧ Bridge.handleUpgrade "/media" = some Bridge.initA :=
  c10_upgrade_routing "/other" (by decide)
